import Mathlib

/-!
Verification of the caption-generation core of the image-caption repository
(single source file, the dispatcher plus the remote and local captioners).

The embedding models the Python code directly:
  - JSON values decoded from a response are the inductive type `Json`
    (dicts are association lists in field order, mirroring Python dicts,
    which preserve insertion order).
  - Python `str()` and `repr()` on such values are `pyStr` and `pyRepr`
    (string `repr` is modelled without escape handling, which is enough
    for the inputs considered here).
  - Python `.strip()` is `pyStrip`; calling `.strip()` on a value that
    is not a string raises, modelled by the `attrError` outcome.
  - Python truthiness of a decoded value is `pyTruthy`.
  - each distinct `raise RuntimeError(...)` site of the source is given a
    `CapError` constructor named after the error taxonomy of the design
    document; the carried data comes from the source message.
  - the process-wide pipeline cache `_caption_pipeline` is threaded as an
    explicit `Option Pipeline` state.
  - the single `requests.post` call is modelled by an environment function
    `respond : HttpRequest → HttpResponse`; the list of issued requests is
    returned so that claims about what was (or was not) sent are statable.
-/

inductive Json where
  | str (s : String)
  | num (n : Int)
  | bool (b : Bool)
  | null
  | arr (xs : List Json)
  | obj (fields : List (String × Json))

/-- Python truthiness of a decoded JSON value. -/
def pyTruthy : Json → Bool
  | .str s => s != ""
  | .num n => n != 0
  | .bool b => b
  | .null => false
  | .arr xs => !xs.isEmpty
  | .obj fs => !fs.isEmpty

mutual

/-- Python `repr` of a decoded JSON value (string escapes not modelled). -/
def pyRepr : Json → String
  | .str s => "\x27" ++ s ++ "\x27"
  | .num n => toString n
  | .bool true => "True"
  | .bool false => "False"
  | .null => "None"
  | .arr xs => "[" ++ pyReprList xs ++ "]"
  | .obj fs => "\x7b" ++ pyReprFields fs ++ "\x7d"

def pyReprList : List Json → String
  | [] => ""
  | [x] => pyRepr x
  | x :: y :: xs => pyRepr x ++ ", " ++ pyReprList (y :: xs)

def pyReprFields : List (String × Json) → String
  | [] => ""
  | [(k, v)] => "\x27" ++ k ++ "\x27: " ++ pyRepr v
  | (k, v) :: f :: fs => "\x27" ++ k ++ "\x27: " ++ pyRepr v ++ ", " ++ pyReprFields (f :: fs)

end

/-- Python `str` of a decoded JSON value. -/
def pyStr : Json → String
  | .str s => s
  | v => pyRepr v

def dropLeadingSpace : List Char → List Char
  | [] => []
  | c :: cs => if c.isWhitespace then dropLeadingSpace cs else c :: cs

/-- Python `s.strip()`: remove whitespace from both ends of a string. -/
def pyStrip (s : String) : String :=
  ⟨List.reverse (dropLeadingSpace (List.reverse (dropLeadingSpace s.data)))⟩

/-- Python `d.get(key)` / `key in d` lookup on a dict in field order. -/
def fieldGet : List (String × Json) → String → Option Json
  | [], _ => none
  | (k, v) :: rest, key => if k == key then some v else fieldGet rest key

/-- Error outcomes, one constructor per distinct raise site of the source. -/
inductive CapError where
  | dependencyError (msg : String)
  | configError (msg : String)
  | remoteError (status : Nat) (body : String)
  | inferenceError (msg : String)
  | attrError (msg : String)

/-- Python `v.strip()` where `v` came out of a decoded JSON value: trims a
string, raises (AttributeError) on anything else. -/
def stripValue : Json → Except CapError String
  | .str s => .ok (pyStrip s)
  | v => .error (.attrError (pyStr v))

/-- The message of the missing-token raise in `caption_via_hf_api`. -/
def hfTokenMsg : String :=
  "Hugging Face API token not provided. Set HF_API_TOKEN env var or pass hf_token."

/-- The message of the missing-requests raise in `caption_via_hf_api`. -/
def requestsMsg : String :=
  "requests library not installed. pip install requests"

/-- Source line `token = hf_token or os.environ.get(\x22HF_API_TOKEN\x22)`
followed by `if not token: raise`. `none` means the falsiness check fires. -/
def resolveToken (hfToken envToken : Option String) : Option String :=
  let token : Option String :=
    match hfToken with
    | some s => if s == "" then envToken else some s
    | none => envToken
  match token with
  | some s => if s == "" then none else some s
  | none => none

/-- The HTTP request as assembled at the `requests.post` call site.
`params` and `data` are the values actually passed there. -/
structure HttpRequest where
  url : String
  authHeader : String
  filesKey : String
  params : Option Json
  data : Option Json
  timeout : Nat

structure HttpResponse where
  status : Nat
  body : String
  json : Json

/-- The local variable `params` built in `caption_via_hf_api` (it is then
not passed: the post call uses `params=None, data=None`). -/
def hfParams (maxLength : Int) : Json :=
  .obj [("options", .obj [("wait_for_model", .bool true)]),
        ("parameters", .obj [("max_new_tokens", .num maxLength)])]

/-- The request `caption_via_hf_api` sends: url from the model id, bearer
header from the token, multipart field `inputs`, `params=None`, `data=None`,
`timeout=120`. -/
def buildRequest (token model : String) (maxLength : Int) : HttpRequest :=
  { url := "https://api-inference.huggingface.co/models/" ++ model
  , authHeader := "Bearer " ++ token
  , filesKey := "inputs"
  , params := none
  , data := none
  , timeout := 120 }

/-- The three-key priority lookup loop of the remote normalizer:
`for key in (\x22generated_text\x22, \x22caption\x22, \x22text\x22)`. -/
def priority3 (fs : List (String × Json)) : Option Json :=
  match fieldGet fs "generated_text" with
  | some v => some v
  | none =>
    match fieldGet fs "caption" with
    | some v => some v
    | none => fieldGet fs "text"

/-- Lines 109-125 of the source: normalization of the decoded remote
response body. -/
def normalizeRemote (j : Json) : Except CapError String :=
  match j with
  | .arr (.obj fs :: _) =>
    match priority3 fs with
    | some v => stripValue v
    | none =>
      .ok (pyStrip (String.intercalate " " (fs.map (fun kv => pyStr kv.2))))
  | .obj fs =>
    match priority3 fs with
    | some v => stripValue v
    | none => .ok (pyStrip (pyStr (.obj fs)))
  | _ => .ok (pyStr j)

/-- Lines 106-125: raise `RuntimeError(f\x22Hugging Face API error ...\x22)`
unless the status code is 200, else normalize the decoded body. -/
def handleResponse (status : Nat) (body : String) (j : Json) :
    Except CapError String :=
  if status != 200 then .error (.remoteError status body)
  else normalizeRemote j

/-- `caption_via_hf_api`. Returns the result together with the list of
HTTP requests issued during the call. -/
def caption_via_hf_api (haveRequests : Bool) (hfToken envToken : Option String)
    (model : String) (maxLength : Int)
    (respond : HttpRequest → HttpResponse) :
    Except CapError String × List HttpRequest :=
  if !haveRequests then (.error (.dependencyError requestsMsg), [])
  else
    match resolveToken hfToken envToken with
    | none => (.error (.configError hfTokenMsg), [])
    | some token =>
      let req := buildRequest token model maxLength
      let resp := respond req
      (handleResponse resp.status resp.body resp.json, [req])

/-- A constructed local pipeline: bound model name and selected device
(0 when CUDA is available, -1 otherwise). -/
structure Pipeline where
  modelName : String
  device : Int
deriving DecidableEq

/-- The default model name used throughout the source. -/
def defaultModel : String := "Salesforce/blip-image-captioning-base"

/-- The environment one call to `ensure_local_pipeline` observes. -/
structure EnsureCall where
  haveTransformers : Bool
  haveTorch : Bool
  cuda : Bool
  ctorFails : Bool
  ctorMsg : String
  modelName : String

/-- `ensure_local_pipeline`: returns (result, new cache state, whether a
pipeline was constructed and stored during this call). -/
def ensureStep (st : Option Pipeline) (c : EnsureCall) :
    Except CapError Pipeline × Option Pipeline × Bool :=
  match st with
  | some p => (.ok p, some p, false)
  | none =>
    if !c.haveTransformers then
      (.error (.dependencyError "transformers not installed. pip install transformers"),
       none, false)
    else if !c.haveTorch then
      (.error (.dependencyError "torch not installed. pip install torch"), none, false)
    else if c.ctorFails then
      (.error (.inferenceError ("Failed to create pipeline: " ++ c.ctorMsg)), none, false)
    else
      let p : Pipeline := ⟨c.modelName, if c.cuda then 0 else -1⟩
      (.ok p, some p, true)

/-- Number of pipeline constructions over a sequence of calls, threading
the cache state. -/
def ensureCount : Option Pipeline → List EnsureCall → Nat
  | _, [] => 0
  | st, c :: cs =>
    let r := ensureStep st c
    (if r.2.2 then 1 else 0) + ensureCount r.2.1 cs

/-- Lines 156-163: normalization of the local pipeline output, with the
Python expressions `out[0].get(...) if isinstance(out[0], dict) else
str(out[0])` and `(txt or \x22\x22).strip()`. -/
def normalizeLocal (out : Json) : Except CapError String :=
  match out with
  | .arr (first :: _) =>
    let txt : Option Json :=
      match first with
      | .obj fs => fieldGet fs "generated_text"
      | v => some (.str (pyStr v))
    let padded : Json :=
      match txt with
      | some v => if pyTruthy v then v else .str ""
      | none => .str ""
    stripValue padded
  | _ => .ok (pyStr out)

/-- Rendering of a caught exception by `str(e)` in the local except clause. -/
def errStr : CapError → String
  | .dependencyError m => m
  | .configError m => m
  | .remoteError s b => "Hugging Face API error " ++ toString s ++ ": " ++ b
  | .inferenceError m => m
  | .attrError m => m

/-- The environment one call to `generate_caption_local` observes:
availability flags, CUDA probe, behavior of the pipeline constructor, and
the outcome of the `pipe(inputs, ...)` invocation. -/
structure LocalEnv where
  haveTransformers : Bool
  haveTorch : Bool
  cuda : Bool
  ctorFails : Bool
  ctorMsg : String
  pipeResult : Except String Json

/-- The `ensure_local_pipeline()` call made by `generate_caption_local`
passes no model name, so the default applies. -/
def LocalEnv.ensureCall (e : LocalEnv) : EnsureCall :=
  ⟨e.haveTransformers, e.haveTorch, e.cuda, e.ctorFails, e.ctorMsg, defaultModel⟩

/-- `generate_caption_local`: ensure the pipeline (errors propagate
unwrapped), run it, normalize; anything raised inside the try block is
re-raised as `RuntimeError(\x22Model inference failed: \x22 + str(e))`. -/
def generate_caption_local (st : Option Pipeline) (lenv : LocalEnv)
    (maxLength : Int) : Except CapError String × Option Pipeline :=
  match ensureStep st lenv.ensureCall with
  | (.error e, st2, _) => (.error e, st2)
  | (.ok _, st2, _) =>
    match lenv.pipeResult with
    | .error m => (.error (.inferenceError ("Model inference failed: " ++ m)), st2)
    | .ok out =>
      match normalizeLocal out with
      | .ok s => (.ok s, st2)
      | .error e =>
        (.error (.inferenceError ("Model inference failed: " ++ errStr e)), st2)

/-- `generate_caption`, the dispatcher: `use_api` selects the remote path,
otherwise the local path (note the source drops `model_name` on the local
path, so the local pipeline always uses the default model). -/
def generate_caption (useApi : Bool) (hfToken envToken : Option String)
    (modelName : String) (maxLength : Int) (haveRequests : Bool)
    (respond : HttpRequest → HttpResponse)
    (st : Option Pipeline) (lenv : LocalEnv) :
    Except CapError String × Option Pipeline :=
  if useApi then
    ((caption_via_hf_api haveRequests hfToken envToken modelName maxLength respond).1, st)
  else
    generate_caption_local st lenv maxLength

/-- An explicit credential or environment value is absent-or-empty exactly
when Python finds it falsy. -/
def falsyOpt (o : Option String) : Prop := o = none ∨ o = some ""

/-- Shapes handled by the final else branch of the remote normalizer:
neither a dict nor a non-empty list whose first element is a dict. -/
def remoteOtherShape : Json → Bool
  | .obj _ => false
  | .arr (.obj _ :: _) => false
  | _ => true

/-- A responder whose answer is status 200 with body `[ \x7b
\x22generated_text\x22: \x22\x22 \x7d ]`: a successful remote reply whose
caption text is empty. -/
def respondEmptyCaption : HttpRequest → HttpResponse :=
  fun _ => ⟨200, "ok", .arr [.obj [("generated_text", .str "")]]⟩

/-- A responder answering 201 Created with a well-formed caption body. -/
def respond201 : HttpRequest → HttpResponse :=
  fun _ => ⟨201, "created", .arr [.obj [("generated_text", .str "hi")]]⟩

/-- A responder answering 200 with a plain caption. -/
def respondPlain : HttpRequest → HttpResponse :=
  fun _ => ⟨200, "ok", .arr [.obj [("generated_text", .str " a dog ")]]⟩

/-- A local environment with everything available and a one-record output. -/
def lenvPlain : LocalEnv :=
  ⟨true, true, false, false, "", .ok (.arr [.obj [("generated_text", .str " a cat ")]])⟩

/-- Whether a decoded JSON value is a dict (`isinstance(v, dict)`). -/
def isObj : Json → Bool
  | .obj _ => true
  | _ => false

/-- Whether a decoded JSON value is a non-empty list
(`isinstance(v, list) and len(v) > 0`). -/
def isNonEmptyList : Json → Bool
  | .arr (_ :: _) => true
  | _ => false

/-! ## Helper lemmas -/

theorem stripValue_pad (u : String) :
    stripValue (if (u != "") = true then Json.str u else Json.str "") =
      .ok (pyStrip u) := by
  by_cases h : u = "" <;> simp [h, stripValue, pyStrip, dropLeadingSpace]

theorem normalizeRemote_ne_config (j : Json) (m : String) :
    normalizeRemote j ≠ .error (.configError m) := by
  cases j with
  | str s => simp [normalizeRemote]
  | num n => simp [normalizeRemote]
  | bool b => simp [normalizeRemote]
  | null => simp [normalizeRemote]
  | obj fs =>
    simp only [normalizeRemote]
    cases priority3 fs with
    | none => simp
    | some v => cases v <;> simp [stripValue]
  | arr xs =>
    cases xs with
    | nil => simp [normalizeRemote]
    | cons hd tl =>
      cases hd with
      | obj fs =>
        simp only [normalizeRemote]
        cases priority3 fs with
        | none => simp
        | some v => cases v <;> simp [stripValue]
      | str s => simp [normalizeRemote]
      | num n => simp [normalizeRemote]
      | bool b => simp [normalizeRemote]
      | null => simp [normalizeRemote]
      | arr ys => simp [normalizeRemote]

theorem handleResponse_ne_config (s : Nat) (b : String) (j : Json) (m : String) :
    handleResponse s b j ≠ .error (.configError m) := by
  unfold handleResponse
  split
  · simp
  · exact normalizeRemote_ne_config j m

theorem resolveToken_none_iff (hf env : Option String) :
    resolveToken hf env = none ↔ falsyOpt hf ∧ falsyOpt env := by
  cases hf with
  | none =>
    cases env with
    | none => simp [resolveToken, falsyOpt]
    | some s => by_cases h : s = "" <;> simp [resolveToken, falsyOpt, h]
  | some t =>
    by_cases ht : t = ""
    · cases env with
      | none => simp [resolveToken, falsyOpt, ht]
      | some s => by_cases h : s = "" <;> simp [resolveToken, falsyOpt, ht, h]
    · cases env with
      | none => simp [resolveToken, falsyOpt, ht]
      | some s => simp [resolveToken, falsyOpt, ht]

theorem ensureCount_some (cs : List EnsureCall) (p : Pipeline) :
    ensureCount (some p) cs = 0 := by
  induction cs with
  | nil => rfl
  | cons c cs ih => simp [ensureCount, ensureStep, ih]

theorem ensureStep_none_cases (c : EnsureCall) :
    (ensureStep none c).2 = (none, false) ∨
      ∃ p, (ensureStep none c).2 = (some p, true) := by
  unfold ensureStep
  by_cases h1 : c.haveTransformers <;> by_cases h2 : c.haveTorch <;>
    by_cases h3 : c.ctorFails <;> simp [h1, h2, h3]

theorem ensureCount_le_one (cs : List EnsureCall) :
    ∀ st : Option Pipeline, ensureCount st cs ≤ 1 := by
  induction cs with
  | nil => intro st; simp [ensureCount]
  | cons c cs ih =>
    intro st
    cases st with
    | some p => rw [ensureCount_some (c :: cs) p]; exact Nat.zero_le 1
    | none =>
      rcases ensureStep_none_cases c with h | ⟨p, h⟩ <;>
        simp only [ensureCount, h] <;> simp [h, ih, ensureCount_some]

/-! ## Claims -/

/-- C2: for a successful remote JSON response that is a non-empty list of
records or a single record, the normalizer looks up the keys
generated_text, caption, text in that priority order (on the first record
in the list case) and returns the whitespace-trimmed value of the first
key present. -/
theorem c2_remote_priority_lookup :
    ∀ (fs : List (String × Json)) (rest : List Json) (s : String),
    (fieldGet fs "generated_text" = some (.str s) →
      normalizeRemote (.arr (.obj fs :: rest)) = .ok (pyStrip s) ∧
      normalizeRemote (.obj fs) = .ok (pyStrip s)) ∧
    (fieldGet fs "generated_text" = none →
      fieldGet fs "caption" = some (.str s) →
      normalizeRemote (.arr (.obj fs :: rest)) = .ok (pyStrip s) ∧
      normalizeRemote (.obj fs) = .ok (pyStrip s)) ∧
    (fieldGet fs "generated_text" = none →
      fieldGet fs "caption" = none →
      fieldGet fs "text" = some (.str s) →
      normalizeRemote (.arr (.obj fs :: rest)) = .ok (pyStrip s) ∧
      normalizeRemote (.obj fs) = .ok (pyStrip s)) := by
  intro fs rest s
  refine ⟨fun h1 => ?_, fun h1 h2 => ?_, fun h1 h2 h3 => ?_⟩ <;>
    constructor <;> simp [normalizeRemote, priority3, stripValue, *]

/-- C2 witness: a one-element list with generated_text yields the trimmed
text, and a bare record with caption yields its value. -/
theorem c2_remote_priority_lookup_witness :
    normalizeRemote (.arr [.obj [("generated_text", .str " X ")]]) = .ok "X" ∧
    normalizeRemote (.obj [("caption", .str "Y")]) = .ok "Y" := by
  constructor
  · exact ((c2_remote_priority_lookup [("generated_text", .str " X ")] []
      " X ").1 rfl).1.trans rfl
  · exact ((c2_remote_priority_lookup [("caption", .str "Y")] []
      "Y").2.1 rfl rfl).2.trans rfl

/-- C9: for a successful remote response that is neither a record nor a
non-empty list whose first element is a record, the normalizer returns the
stringification of the whole value, and only this branch skips
whitespace trimming. -/
theorem c9_remote_other_shapes :
    (∀ j : Json, remoteOtherShape j = true → normalizeRemote j = .ok (pyStr j)) ∧
    normalizeRemote (.str " x ") = .ok " x " ∧ pyStrip " x " ≠ " x " := by
  refine ⟨?_, rfl, by decide⟩
  intro j h
  cases j with
  | str s => rfl
  | num n => rfl
  | bool b => rfl
  | null => rfl
  | obj fs => simp [remoteOtherShape] at h
  | arr xs =>
    cases xs with
    | nil => rfl
    | cons hd tl =>
      cases hd with
      | obj fs => simp [remoteOtherShape] at h
      | str s => rfl
      | num n => rfl
      | bool b => rfl
      | null => rfl
      | arr ys => rfl

/-- C9 witness: the empty list and a list of strings are stringified
whole, untrimmed. -/
theorem c9_remote_other_shapes_witness :
    normalizeRemote (.arr []) = .ok "[]" ∧
    normalizeRemote (.arr [.str "a", .str "b"]) =
      .ok "[\x27a\x27, \x27b\x27]" := by
  constructor
  · exact (c9_remote_other_shapes.1 (.arr []) rfl).trans rfl
  · exact (c9_remote_other_shapes.1 (.arr [.str "a", .str "b"]) rfl).trans rfl

/-- C3 counterexample: status 201 is a success (2xx) status, yet the code
raises the remote error, because it treats only 200 as success; this
refutes the claim that every success status yields a caption. -/
theorem c3_counterexample :
    (caption_via_hf_api true (some "tok") none "m" 40 respond201).1 =
      .error (.remoteError 201 "created") ∧ 200 ≤ 201 ∧ 201 < 300 :=
  ⟨rfl, by decide, by decide⟩

/-- C3 amended: the remote call fails with RemoteError carrying the status
code and raw body exactly when the status differs from 200 (not: non-2xx);
at status 200 it proceeds to response normalization. -/
theorem c3_amended :
    ∀ (status : Nat) (body : String) (j : Json),
    (status ≠ 200 → handleResponse status body j = .error (.remoteError status body)) ∧
    handleResponse 200 body j = normalizeRemote j := by
  intro status body j
  constructor
  · intro h
    simp [handleResponse, bne_iff_ne, h]
  · simp [handleResponse]

/-- C3 amended witness: a 404 reply raises the remote error carrying both
the status and the body. -/
theorem c3_amended_witness :
    handleResponse 404 "oops" .null = .error (.remoteError 404 "oops") :=
  (c3_amended 404 "oops" .null).1 (by decide)

/-- C7 counterexample: a first record with no known key and fields in the
order b, a yields the values joined in field order, not key-sorted order
(and not plain concatenation). -/
theorem c7_counterexample :
    normalizeRemote (.arr [.obj [("b", .str "1"), ("a", .str "2")]]) = .ok "1 2" ∧
    "1 2" ≠ "2 1" ∧ "1 2" ≠ "21" :=
  ⟨rfl, by decide, by decide⟩

/-- C7 amended: when none of the keys generated_text, caption, text occurs
in the first record, the normalizer returns the stringified field values
joined by single spaces in the record's own field order (the insertion
order of the dict), whitespace-trimmed. -/
theorem c7_amended :
    ∀ (fs : List (String × Json)) (rest : List Json),
    fieldGet fs "generated_text" = none →
    fieldGet fs "caption" = none →
    fieldGet fs "text" = none →
    normalizeRemote (.arr (.obj fs :: rest)) =
      .ok (pyStrip (String.intercalate " " (fs.map (fun kv => pyStr kv.2)))) := by
  intro fs rest h1 h2 h3
  simp [normalizeRemote, priority3, h1, h2, h3]

/-- C7 amended witness: the joined fallback at a concrete two-field record. -/
theorem c7_amended_witness :
    normalizeRemote (.arr [.obj [("x", .str "u"), ("y", .str "v")]]) =
      .ok "u v" :=
  (c7_amended [("x", .str "u"), ("y", .str "v")] [] rfl rfl rfl).trans rfl

/-- C6 counterexample: a non-empty list whose first record lacks
generated_text yields the empty string, not the stringification of that
record. -/
theorem c6_counterexample :
    normalizeLocal (.arr [.obj [("caption", .str "Y")]]) = .ok "" ∧
    pyStr (.obj [("caption", .str "Y")]) = "\x7b\x27caption\x27: \x27Y\x27\x7d" ∧
    ("" : String) ≠ "\x7b\x27caption\x27: \x27Y\x27\x7d" :=
  ⟨rfl, rfl, by decide⟩

/-- C6 amended: for a non-empty list output, when the first element is a
record the local normalizer returns the trimmed generated_text value if it
is present as a truthy string, and the empty string when the field is
absent or falsy (never the stringified record); when the first element is
not a record it returns its trimmed stringification; any other output
shape is stringified whole. -/
theorem c6_amended :
    ∀ (fs : List (String × Json)) (rest : List Json) (first out : Json)
      (s : String),
    (fieldGet fs "generated_text" = some (.str s) → s ≠ "" →
      normalizeLocal (.arr (.obj fs :: rest)) = .ok (pyStrip s)) ∧
    (fieldGet fs "generated_text" = none →
      normalizeLocal (.arr (.obj fs :: rest)) = .ok "") ∧
    (∀ v, fieldGet fs "generated_text" = some v → pyTruthy v = false →
      normalizeLocal (.arr (.obj fs :: rest)) = .ok "") ∧
    (isObj first = false →
      normalizeLocal (.arr (first :: rest)) = .ok (pyStrip (pyStr first))) ∧
    (isNonEmptyList out = false → normalizeLocal out = .ok (pyStr out)) := by
  intro fs rest first out s
  refine ⟨fun h1 h2 => ?_, fun h1 => ?_, fun v h1 h2 => ?_, fun h1 => ?_,
    fun h1 => ?_⟩
  · simp [normalizeLocal, h1, pyTruthy, h2, stripValue]
  · simp [normalizeLocal, h1, stripValue, pyStrip, dropLeadingSpace]
  · simp [normalizeLocal, h1, h2, stripValue, pyStrip, dropLeadingSpace]
  · cases first with
    | obj fs2 => simp [isObj] at h1
    | str t => simpa [normalizeLocal, pyTruthy, pyStr] using stripValue_pad t
    | num n => simpa [normalizeLocal, pyTruthy, pyStr] using stripValue_pad (pyRepr (.num n))
    | bool b => simpa [normalizeLocal, pyTruthy, pyStr] using stripValue_pad (pyRepr (.bool b))
    | null => simpa [normalizeLocal, pyTruthy, pyStr] using stripValue_pad (pyRepr .null)
    | arr ys => simpa [normalizeLocal, pyTruthy, pyStr] using stripValue_pad (pyRepr (.arr ys))
  · cases out with
    | arr xs =>
      cases xs with
      | nil => rfl
      | cons hd tl => simp [isNonEmptyList] at h1
    | str t => rfl
    | num n => rfl
    | bool b => rfl
    | null => rfl
    | obj fs2 => rfl

/-- C6 amended witness: a present, truthy generated_text is trimmed; an
absent one yields the empty string. -/
theorem c6_amended_witness :
    normalizeLocal (.arr [.obj [("generated_text", .str " a dog ")]]) =
      .ok "a dog" ∧
    normalizeLocal (.arr [.obj [("score", .str "9")]]) = .ok "" := by
  constructor
  · exact ((c6_amended [("generated_text", .str " a dog ")] [] .null .null
      " a dog ").1 rfl (by decide)).trans rfl
  · exact (c6_amended [("score", .str "9")] [] .null .null "").2.1 rfl

/-- C5: the local pipeline cache is a one-way memoization: a call that
finds a cached pipeline returns it unchanged with no construction,
whatever the requested model; a first call with the capabilities present
constructs the pipeline bound to the given model name and stores it; a
cached state never constructs again; and over any sequence of calls from
any state, at most one construction ever happens. -/
theorem c5_pipeline_memoization :
    ∀ (p : Pipeline) (c : EnsureCall) (st : Option Pipeline)
      (cs : List EnsureCall),
    ensureStep (some p) c = (.ok p, some p, false) ∧
    (c.haveTransformers = true → c.haveTorch = true → c.ctorFails = false →
      ensureStep none c =
        (.ok ⟨c.modelName, if c.cuda then 0 else -1⟩,
         some ⟨c.modelName, if c.cuda then 0 else -1⟩, true)) ∧
    ensureCount (some p) cs = 0 ∧
    ensureCount st cs ≤ 1 := by
  intro p c st cs
  refine ⟨rfl, fun h1 h2 h3 => ?_, ensureCount_some cs p, ensureCount_le_one cs st⟩
  simp [ensureStep, h1, h2, h3]

/-- C5 witness: a cached pipeline is reused as-is even for a different
model name, and a first call constructs the pipeline for the given model. -/
theorem c5_pipeline_memoization_witness :
    ensureStep (some ⟨"m", -1⟩) ⟨true, true, false, false, "", "other"⟩ =
      (.ok ⟨"m", -1⟩, some ⟨"m", -1⟩, false) ∧
    ensureStep none ⟨true, true, true, false, "", "m2"⟩ =
      (.ok ⟨"m2", 0⟩, some ⟨"m2", 0⟩, true) :=
  ⟨(c5_pipeline_memoization ⟨"m", -1⟩ ⟨true, true, false, false, "", "other"⟩
      none []).1,
   (c5_pipeline_memoization ⟨"m", -1⟩ ⟨true, true, true, false, "", "m2"⟩
      none []).2.1 rfl rfl rfl⟩

/-- C4: with no explicit token and no credential in the environment the
remote call fails with the configuration error and issues no HTTP request;
and a non-empty explicit token wins over any environment value: it is the
one resolved and the one carried in the authorization header of the single
request issued. -/
theorem c4_credential_resolution :
    ∀ (env : Option String) (m : String) (len : Int)
      (respond : HttpRequest → HttpResponse) (t e : String),
    (falsyOpt env →
      caption_via_hf_api true none env m len respond =
        (.error (.configError hfTokenMsg), [])) ∧
    (t ≠ "" → resolveToken (some t) (some e) = some t) ∧
    (t ≠ "" →
      (caption_via_hf_api true (some t) (some e) m len respond).2 =
        [buildRequest t m len] ∧
      (buildRequest t m len).authHeader = "Bearer " ++ t) := by
  intro env m len respond t e
  refine ⟨fun h => ?_, fun ht => ?_, fun ht => ?_⟩
  · rcases h with h | h <;> subst h <;> rfl
  · simp [resolveToken, ht]
  · constructor
    · simp [caption_via_hf_api, resolveToken, ht]
    · rfl

/-- C4 witness: both conjuncts at concrete tokens. -/
theorem c4_credential_resolution_witness :
    caption_via_hf_api true none none "m" 40 respondPlain =
      (.error (.configError hfTokenMsg), []) ∧
    resolveToken (some "tok") (some "envtok") = some "tok" :=
  ⟨(c4_credential_resolution none "m" 40 respondPlain "tok" "envtok").1
      (Or.inl rfl),
   (c4_credential_resolution none "m" 40 respondPlain "tok" "envtok").2.1
      (by decide)⟩

/-- C10 counterexample: with an empty explicit token and the environment
variable set to the empty string, the missing-credential error is raised
even though the environment variable is not unset; so the error is not
raised only when the variable is unset. -/
theorem c10_counterexample :
    (caption_via_hf_api true (some "") (some "") "m" 40 respondPlain).1 =
      .error (.configError hfTokenMsg) ∧
    (some "" : Option String) ≠ none :=
  ⟨rfl, by decide⟩

/-- C10 amended: an explicit empty token behaves exactly like an absent
one (resolution falls through to the environment), and the
missing-credential error is raised precisely when the explicit argument is
empty or absent and the environment variable is unset or empty. -/
theorem c10_amended :
    ∀ (hf env : Option String) (m : String) (len : Int)
      (respond : HttpRequest → HttpResponse),
    caption_via_hf_api true (some "") env m len respond =
      caption_via_hf_api true none env m len respond ∧
    ((caption_via_hf_api true hf env m len respond).1 =
        .error (.configError hfTokenMsg) ↔ falsyOpt hf ∧ falsyOpt env) := by
  intro hf env m len respond
  constructor
  · rfl
  · rw [← resolveToken_none_iff]
    cases h : resolveToken hf env with
    | none => simp [caption_via_hf_api, h]
    | some t => simp [caption_via_hf_api, h, handleResponse_ne_config]

/-- C10 amended witness: an absent explicit token with an empty (but set)
environment variable raises the configuration error. -/
theorem c10_amended_witness :
    (caption_via_hf_api true none (some "") "m" 40 respondPlain).1 =
      .error (.configError hfTokenMsg) :=
  ((c10_amended none (some "") "m" 40 respondPlain).2).mpr
    ⟨Or.inl rfl, Or.inr rfl⟩

/-- C8: the remote call issues exactly one request, to the inference host
url built from the model id, with a bearer authorization header and the
fixed 120 timeout; but the generation parameters dict carrying max_length
is built and then dropped (the post call passes params=None, data=None),
so no generation parameter is carried in the request. -/
theorem c8_params_dropped :
    (caption_via_hf_api true (some "tok") none "m" 40 respondPlain).2 =
      [buildRequest "tok" "m" 40] ∧
    (buildRequest "tok" "m" 40).url =
      "https://api-inference.huggingface.co/models/m" ∧
    (buildRequest "tok" "m" 40).authHeader = "Bearer tok" ∧
    (buildRequest "tok" "m" 40).timeout = 120 ∧
    (buildRequest "tok" "m" 40).params = none ∧
    (buildRequest "tok" "m" 40).data = none ∧
    hfParams 40 =
      .obj [("options", .obj [("wait_for_model", .bool true)]),
            ("parameters", .obj [("max_new_tokens", .num 40)])] :=
  ⟨rfl, rfl, rfl, rfl, rfl, rfl, rfl⟩

/-- C1 counterexample: a successful remote reply whose generated_text is
empty makes the dispatcher return a successful empty caption, refuting the
non-empty guarantee. -/
theorem c1_counterexample :
    (generate_caption true (some "tok") none defaultModel 40 true
        respondEmptyCaption none lenvPlain).1 = .ok "" := rfl

/-- C1 amended: the dispatcher delegates to the remote captioner exactly
when use_api is true and to the local captioner otherwise, returning the
chosen backend result (hence any backend error) unchanged; the non-empty
success guarantee does not hold, since a backend may succeed with an empty
caption. -/
theorem c1_amended :
    ∀ (useApi : Bool) (hfToken envToken : Option String) (modelName : String)
      (maxLength : Int) (haveRequests : Bool)
      (respond : HttpRequest → HttpResponse) (st : Option Pipeline)
      (lenv : LocalEnv),
    (useApi = true →
      generate_caption useApi hfToken envToken modelName maxLength
          haveRequests respond st lenv =
        ((caption_via_hf_api haveRequests hfToken envToken modelName
            maxLength respond).1, st)) ∧
    (useApi = false →
      generate_caption useApi hfToken envToken modelName maxLength
          haveRequests respond st lenv =
        generate_caption_local st lenv maxLength) := by
  intro u hf env m len hr resp st lenv
  constructor <;> intro h <;> subst h <;> rfl

/-- C1 amended witness: the remote delegation at a concrete request,
evaluated to the trimmed caption of the stubbed reply. -/
theorem c1_amended_witness :
    generate_caption true (some "tok") none defaultModel 40 true respondPlain
        none lenvPlain = (.ok "a dog", none) :=
  ((c1_amended true (some "tok") none defaultModel 40 true respondPlain none
      lenvPlain).1 rfl).trans rfl
